import Mathlib

/-
Verification of the macro-aggregation data model of the jacktrack repository
(src/server/app/models.py) against its natural-language specification.

Numeric model: the source stores macro amounts, gram quantities and serving
multipliers as SQL Float columns manipulated with ordinary Python arithmetic
(`*`, `/`, `+`); we embed them as rationals (ℚ), the exact arithmetic the
formulas denote.  All entity records are embedded as Lean structures with the
source's field names; object-graph methods (`Ingredient.scale_macros`,
`Meal.calculate_totals`) are embedded as pure functions over those structures,
and the relational schema (unique constraints, check constraints, foreign-key
referential actions declared in models.py) as a `DBState` of row lists with
explicit state-passing operations.
-/

namespace JackTrack

/-- A macro record: the five derived fields returned by `scale_macros` and
`calculate_totals` in models.py. -/
structure Macros where
  calories : ℚ
  protein : ℚ
  carbs : ℚ
  fat : ℚ
  fiber : ℚ
deriving DecidableEq, Repr

/-- The all-zero macro record, the initial accumulator of `calculate_totals`. -/
def Macros.zero : Macros :=
  { calories := 0, protein := 0, carbs := 0, fat := 0, fiber := 0 }

/-- Field-wise addition, the per-key `totals[key] += macros[key]` loop body of
`Meal.calculate_totals`. -/
def Macros.add (a b : Macros) : Macros :=
  { calories := a.calories + b.calories
    protein := a.protein + b.protein
    carbs := a.carbs + b.carbs
    fat := a.fat + b.fat
    fiber := a.fiber + b.fiber }

/-- An `ingredients` row (models.py, class Ingredient): user-owned, macros
stored per 100g. -/
structure Ingredient where
  id : Nat
  user_id : Nat
  name : String
  calories : ℚ
  protein : ℚ
  carbs : ℚ
  fat : ℚ
  fiber : ℚ
deriving DecidableEq, Repr

/-- Embeds `Ingredient.scale_macros` (models.py lines 112-121): multiplier is
`quantity_grams / 100.0` and every per-100g base field is multiplied by it. -/
def Ingredient.scale_macros (i : Ingredient) (quantity_grams : ℚ) : Macros :=
  let multiplier := quantity_grams / 100
  { calories := i.calories * multiplier
    protein := i.protein * multiplier
    carbs := i.carbs * multiplier
    fat := i.fat * multiplier
    fiber := i.fiber * multiplier }

/-- A `meal_ingredients` row as seen through the ORM object graph when
`Meal.calculate_totals` runs: `mi.ingredient` is the resolved Ingredient
object and `mi.quantity_grams` the stored quantity. -/
structure MealIngredientObj where
  ingredient : Ingredient
  quantity_grams : ℚ
deriving DecidableEq, Repr

/-- A `meals` row together with its resolved `meal_ingredients` relationship,
as traversed by `Meal.calculate_totals`. -/
structure MealObj where
  id : Nat
  user_id : Nat
  name : String
  instructions : Option String
  meal_ingredients : List MealIngredientObj
deriving DecidableEq, Repr

/-- Embeds `Meal.calculate_totals` (models.py lines 174-180): start from an
all-zero dict and, for each MealIngredient row, add
`mi.ingredient.scale_macros(mi.quantity_grams)` field by field. -/
def MealObj.calculate_totals (m : MealObj) : Macros :=
  m.meal_ingredients.foldl
    (fun totals mi => totals.add (mi.ingredient.scale_macros mi.quantity_grams))
    Macros.zero

/-- A `daily_log_meals` row through the object graph: the resolved Meal and
the `servings` multiplier. -/
structure DailyLogMealObj where
  meal : MealObj
  servings : ℚ
deriving DecidableEq, Repr

/-- A `daily_logs` row together with its resolved `daily_log_meals`
attachments. -/
structure DailyLogObj where
  id : Nat
  user_id : Nat
  daily_log_meals : List DailyLogMealObj
deriving DecidableEq, Repr

/-- Modelled from the spec: models.py declares the DailyLog and DailyLogMeal
tables (lines 218-300) but contains no day-level totals method; spec section 4.3
defines `totals(log)` as the field-wise sum, over all attached DailyLogMeal
rows, of `totals(row.meal)` with each field multiplied by `row.servings`. -/
def DailyLogObj.calculate_totals (l : DailyLogObj) : Macros :=
  l.daily_log_meals.foldl
    (fun totals dlm =>
      let t := dlm.meal.calculate_totals
      { calories := totals.calories + t.calories * dlm.servings
        protein := totals.protein + t.protein * dlm.servings
        carbs := totals.carbs + t.carbs * dlm.servings
        fat := totals.fat + t.fat * dlm.servings
        fiber := totals.fiber + t.fiber * dlm.servings })
    Macros.zero

/-- A `meals` row as stored (models.py lines 124-169), without the resolved
relationship lists. -/
structure MealRow where
  id : Nat
  user_id : Nat
  name : String
  instructions : Option String
deriving DecidableEq, Repr

/-- A `meal_ingredients` row as stored (models.py lines 183-212): foreign keys
`meal_id` (ondelete CASCADE) and `ingredient_id` (ondelete RESTRICT) plus
`quantity_grams`. -/
structure MealIngredientRow where
  id : Nat
  meal_id : Nat
  ingredient_id : Nat
  quantity_grams : ℚ
deriving DecidableEq, Repr

/-- A `daily_logs` row as stored (models.py lines 218-264); `log_date` is an
abstract day index. -/
structure DailyLogRow where
  id : Nat
  user_id : Nat
  log_date : Nat
  steps : Option Int
  bodyweight : Option ℚ
  notes : Option String
deriving DecidableEq, Repr

/-- A `daily_log_meals` row as stored (models.py lines 267-300): foreign keys
`daily_log_id` (ondelete CASCADE) and `meal_id` (ondelete RESTRICT) plus
`servings`. -/
structure DailyLogMealRow where
  id : Nat
  daily_log_id : Nat
  meal_id : Nat
  servings : ℚ
deriving DecidableEq, Repr

/-- The relational database state: one list per table of the macro-aggregation
core of models.py. -/
structure DBState where
  ingredients : List Ingredient
  meals : List MealRow
  meal_ingredients : List MealIngredientRow
  daily_log_meals : List DailyLogMealRow
  daily_logs : List DailyLogRow
deriving DecidableEq, Repr

/-- Look up an ingredient by primary key. -/
def findIngredient (db : DBState) (iid : Nat) : Option Ingredient :=
  db.ingredients.find? (fun r => r.id == iid)

/-- Look up a meal by primary key. -/
def findMeal (db : DBState) (mid : Nat) : Option MealRow :=
  db.meals.find? (fun r => r.id == mid)

/-- Look up a daily log by primary key. -/
def findDailyLog (db : DBState) (lid : Nat) : Option DailyLogRow :=
  db.daily_logs.find? (fun r => r.id == lid)

/-- The error kinds of spec section 7 surfaced by the mutation operations. An
operation returning `Except.error` performs no mutation: the state transition
is the `Except.ok` payload and nothing else. -/
inductive ModelError where
  | validationError
  | referentialIntegrityError
  | conflictError
  | ownershipError
  | notFound
deriving DecidableEq, Repr

/-- Modelled from the spec: the Ingredient Library `create(user, name, macros)`
operation (spec section 4.1) is absent from src; models.py declares only its
constraints, the unique constraint `uq_ingredients_user_id_name` (line 99) and
the five nonnegativity check constraints (lines 102-106).  Per the spec it
fails with ValidationError if any macro field is negative or the name already
exists for this user, otherwise inserts the row. -/
def createIngredient (db : DBState) (ing : Ingredient) : Except ModelError DBState :=
  if ing.calories < 0 ∨ ing.protein < 0 ∨ ing.carbs < 0 ∨ ing.fat < 0 ∨ ing.fiber < 0 then
    .error .validationError
  else if db.ingredients.any (fun r => r.user_id == ing.user_id && r.name == ing.name) then
    .error .validationError
  else
    .ok { db with ingredients := db.ingredients ++ [ing] }

/-- Modelled from the spec: the Ingredient Library `delete(ingredient)`
operation (spec section 4.1) is absent from src; models.py declares the
foreign key `meal_ingredients.ingredient_id` with ondelete RESTRICT
(lines 198-203), so the delete fails with ReferentialIntegrityError while any
MealIngredient row references the ingredient, and otherwise removes the row. -/
def deleteIngredient (db : DBState) (iid : Nat) : Except ModelError DBState :=
  if db.meal_ingredients.any (fun mi => mi.ingredient_id == iid) then
    .error .referentialIntegrityError
  else
    .ok { db with ingredients := db.ingredients.filter (fun r => r.id != iid) }

/-- Modelled from the spec: the Meal Composer
`add_ingredient(meal, ingredient, quantity_grams)` operation (spec section 4.2)
is absent from src; models.py declares the check constraint
`ck_meal_ingredients_qty_positive` (line 211) and the spec adds the ownership
guard.  It fails with ValidationError if the quantity is not positive, with
OwnershipError if the ingredient and the meal belong to different users, and
otherwise inserts the join row. -/
def add_ingredient (db : DBState) (meal_id ingredient_id : Nat) (quantity_grams : ℚ)
    (newId : Nat) : Except ModelError DBState :=
  match findMeal db meal_id, findIngredient db ingredient_id with
  | some meal, some ing =>
    if quantity_grams ≤ 0 then .error .validationError
    else if ing.user_id = meal.user_id then
      .ok { db with meal_ingredients :=
              db.meal_ingredients ++ [⟨newId, meal_id, ingredient_id, quantity_grams⟩] }
    else .error .ownershipError
  | _, _ => .error .notFound

/-- Modelled from the spec: the Daily Log `attach_meal(log, meal, servings)`
operation (spec section 4.3) is absent from src; models.py declares the check
constraint `ck_daily_log_meals_servings_positive` (line 295) and the unique
constraint `uq_daily_log_meals_daily_log_id_meal_id` (line 296), and the spec
adds the ownership guard.  Checks follow the spec's order: ValidationError if
servings is not positive, ConflictError if this meal is already attached to
this log, OwnershipError if the meal and the log belong to different users;
otherwise it inserts the attachment row. -/
def attach_meal (db : DBState) (log_id meal_id : Nat) (servings : ℚ)
    (newId : Nat) : Except ModelError DBState :=
  match findDailyLog db log_id, findMeal db meal_id with
  | some log, some meal =>
    if servings ≤ 0 then .error .validationError
    else if db.daily_log_meals.any (fun r => r.daily_log_id == log_id && r.meal_id == meal_id) then
      .error .conflictError
    else if meal.user_id = log.user_id then
      .ok { db with daily_log_meals :=
              db.daily_log_meals ++ [⟨newId, log_id, meal_id, servings⟩] }
    else .error .ownershipError
  | _, _ => .error .notFound

/-- Modelled from the spec: the Daily Log `detach_meal(log, meal)` operation
(spec section 4.3) is absent from src; it removes the attachment rows joining
the given log and meal. -/
def detach_meal (db : DBState) (log_id meal_id : Nat) : DBState :=
  { db with daily_log_meals :=
      db.daily_log_meals.filter (fun r =>
        !(r.daily_log_id == log_id && r.meal_id == meal_id)) }

/-- Modelled from the spec: editing an ingredient's macros (spec section 4.1
update) is absent from src; this replaces the five per-100g macro fields of
the ingredient with the given primary key. -/
def updateIngredientMacros (db : DBState) (iid : Nat) (v : Macros) : DBState :=
  { db with ingredients :=
      db.ingredients.map (fun r =>
        if r.id = iid then
          { r with calories := v.calories, protein := v.protein, carbs := v.carbs,
                   fat := v.fat, fiber := v.fiber }
        else r) }

/-- Totals of the rows of one meal read from the relational state, resolving
each row's `ingredient` foreign key as `Meal.calculate_totals` does through
`mi.ingredient`; `none` when a foreign key dangles. -/
def rowsTotals (db : DBState) : List MealIngredientRow → Option Macros
  | [] => some Macros.zero
  | r :: rest => do
    let i ← findIngredient db r.ingredient_id
    let t ← rowsTotals db rest
    some ((i.scale_macros r.quantity_grams).add t)

/-- Meal totals over the relational state: fold `scale_macros` over the meal's
`meal_ingredients` rows exactly as `Meal.calculate_totals` does. -/
def mealTotalsDB (db : DBState) (mid : Nat) : Option Macros :=
  rowsTotals db (db.meal_ingredients.filter (fun r => r.meal_id == mid))

/-- The totals read as a state transition: `Meal.calculate_totals` only reads
the object graph and writes a local dict, so the embedded read returns the
computed totals paired with the unchanged state. -/
def calcTotalsRead (db : DBState) (mid : Nat) : Option Macros × DBState :=
  (mealTotalsDB db mid, db)

/-- Absence of cross-user join rows: every MealIngredient row links a meal and
an ingredient of the same user, and every DailyLogMeal row links a daily log
and a meal of the same user (spec sections 4.2, 4.3 and 9). -/
def crossFree (db : DBState) : Prop :=
  (∀ mi ∈ db.meal_ingredients, ∀ m i, findMeal db mi.meal_id = some m →
      findIngredient db mi.ingredient_id = some i → m.user_id = i.user_id) ∧
  (∀ r ∈ db.daily_log_meals, ∀ l m, findDailyLog db r.daily_log_id = some l →
      findMeal db r.meal_id = some m → l.user_id = m.user_id)

/-- The `(user_id, name)` uniqueness invariant of the ingredients table
(unique constraint `uq_ingredients_user_id_name`, models.py line 99). -/
def uniqueUserName (l : List Ingredient) : Prop :=
  l.Pairwise (fun a b => ¬(a.user_id = b.user_id ∧ a.name = b.name))

/-- The concrete ingredient of spec section 8's scenario: Chicken Breast,
per-100g macros 165 / 31 / 0 / 3.6 / 0. -/
def chicken : Ingredient :=
  { id := 1, user_id := 1, name := "Chicken Breast",
    calories := 165, protein := 31, carbs := 0, fat := 3.6, fiber := 0 }

/-- The scenario's meal: Lunch, containing 150g of chicken and nothing else. -/
def lunch : MealObj :=
  { id := 1, user_id := 1, name := "Lunch", instructions := none,
    meal_ingredients := [{ ingredient := chicken, quantity_grams := 150 }] }

/-- A meal with no ingredient rows. -/
def emptyMeal : MealObj :=
  { id := 2, user_id := 1, name := "Empty", instructions := none,
    meal_ingredients := [] }

/-- The scenario's day: the lunch meal attached with servings = 2. -/
def day1 : DailyLogObj :=
  { id := 1, user_id := 1, daily_log_meals := [{ meal := lunch, servings := 2 }] }

/-- A daily log with no meal attachments. -/
def emptyLog : DailyLogObj :=
  { id := 2, user_id := 1, daily_log_meals := [] }

/-- A second ingredient of user 1 reusing the name Chicken Breast, for the
duplicate-name case. -/
def chickenDup : Ingredient :=
  { id := 3, user_id := 1, name := "Chicken Breast",
    calories := 100, protein := 1, carbs := 1, fat := 1, fiber := 1 }

/-- User 2's ingredient reusing user 1's name Chicken Breast, for the
name-reuse-across-users case. -/
def chickenUser2 : Ingredient :=
  { id := 4, user_id := 2, name := "Chicken Breast",
    calories := 100, protein := 1, carbs := 1, fat := 1, fiber := 1 }

/-- A second user's ingredient, for the cross-user and name-reuse cases. -/
def rice : Ingredient :=
  { id := 2, user_id := 2, name := "Rice",
    calories := 130, protein := 2.7, carbs := 28, fat := 0.3, fiber := 0.4 }

/-- User 1's stored meal row. -/
def lunchRow : MealRow :=
  { id := 1, user_id := 1, name := "Lunch", instructions := none }

/-- User 2's stored meal row. -/
def otherMealRow : MealRow :=
  { id := 2, user_id := 2, name := "Other", instructions := none }

/-- User 1's daily log row. -/
def logRow : DailyLogRow :=
  { id := 1, user_id := 1, log_date := 1, steps := none,
    bodyweight := none, notes := none }

/-- A small concrete database: two users' ingredients and meals, one
MealIngredient row (150g of chicken in Lunch) and one DailyLogMeal row
(Lunch attached to user 1's log with servings = 2). -/
def db0 : DBState :=
  { ingredients := [chicken, rice],
    meals := [lunchRow, otherMealRow],
    meal_ingredients := [{ id := 1, meal_id := 1, ingredient_id := 1, quantity_grams := 150 }],
    daily_log_meals := [{ id := 1, daily_log_id := 1, meal_id := 1, servings := 2 }],
    daily_logs := [logRow] }

/-- Like db0 but with no MealIngredient or DailyLogMeal rows yet, so that the
linking operations can succeed on it. -/
def dbFree : DBState :=
  { ingredients := [chicken, rice],
    meals := [lunchRow, otherMealRow],
    meal_ingredients := [],
    daily_log_meals := [],
    daily_logs := [logRow] }

-- Folding field-wise addition of mapped macro records over a list, starting
-- from an arbitrary accumulator, equals the accumulator plus the field-wise
-- list sums.

theorem foldl_add_macros {α : Type} (f : α → Macros) (l : List α) (init : Macros) :
    l.foldl (fun t a => t.add (f a)) init =
      { calories := init.calories + (l.map fun a => (f a).calories).sum
        protein := init.protein + (l.map fun a => (f a).protein).sum
        carbs := init.carbs + (l.map fun a => (f a).carbs).sum
        fat := init.fat + (l.map fun a => (f a).fat).sum
        fiber := init.fiber + (l.map fun a => (f a).fiber).sum } := by
  induction l generalizing init with
  | nil => simp
  | cons x xs ih =>
    rw [List.foldl_cons, ih]
    simp only [List.map_cons, List.sum_cons, Macros.add]
    congr 1 <;> ring

/-- C1: for every meal M, `calculate_totals` returns a record whose calories,
protein, carbs, fat and fiber fields each equal the field-wise sum of
`scale_macros(mi.ingredient, mi.quantity_grams)` over all of M's
MealIngredient rows, and for a meal with zero ingredient rows every field of
the result is 0. -/
theorem meal_totals_fieldwise_sum (m : MealObj) :
    (m.calculate_totals.calories =
        (m.meal_ingredients.map fun mi =>
          (mi.ingredient.scale_macros mi.quantity_grams).calories).sum ∧
      m.calculate_totals.protein =
        (m.meal_ingredients.map fun mi =>
          (mi.ingredient.scale_macros mi.quantity_grams).protein).sum ∧
      m.calculate_totals.carbs =
        (m.meal_ingredients.map fun mi =>
          (mi.ingredient.scale_macros mi.quantity_grams).carbs).sum ∧
      m.calculate_totals.fat =
        (m.meal_ingredients.map fun mi =>
          (mi.ingredient.scale_macros mi.quantity_grams).fat).sum ∧
      m.calculate_totals.fiber =
        (m.meal_ingredients.map fun mi =>
          (mi.ingredient.scale_macros mi.quantity_grams).fiber).sum) ∧
    (m.meal_ingredients = [] → m.calculate_totals = Macros.zero) := by
  constructor
  · unfold MealObj.calculate_totals
    rw [foldl_add_macros]
    simp [Macros.zero]
  · intro h
    simp [MealObj.calculate_totals, h]

/-- C1 witness: the sum shape and the empty case evaluated on concrete
meals. -/
theorem meal_totals_fieldwise_sum_witness :
    lunch.calculate_totals.calories =
      (lunch.meal_ingredients.map fun mi =>
        (mi.ingredient.scale_macros mi.quantity_grams).calories).sum ∧
    emptyMeal.calculate_totals = Macros.zero :=
  ⟨(meal_totals_fieldwise_sum lunch).1.1,
   (meal_totals_fieldwise_sum emptyMeal).2 rfl⟩

/-- C2: for every ingredient I and quantity g ≥ 0 of grams, `scale_macros`
returns each macro field equal to the per-100g base field times g / 100;
`scale_macros(I, 0)` is all zeros, and g ranges over arbitrary (not
necessarily whole) rational gram amounts. -/
theorem scale_macros_spec (i : Ingredient) (g : ℚ) (_hg : 0 ≤ g) :
    ((i.scale_macros g).calories = i.calories * g / 100 ∧
      (i.scale_macros g).protein = i.protein * g / 100 ∧
      (i.scale_macros g).carbs = i.carbs * g / 100 ∧
      (i.scale_macros g).fat = i.fat * g / 100 ∧
      (i.scale_macros g).fiber = i.fiber * g / 100) ∧
    i.scale_macros 0 = Macros.zero := by
  refine ⟨⟨?_, ?_, ?_, ?_, ?_⟩, ?_⟩ <;>
    simp [Ingredient.scale_macros, Macros.zero] <;> ring

/-- C2 witness: the chicken ingredient at the fractional quantity 2.5g. -/
theorem scale_macros_spec_witness :
    (0 : ℚ) ≤ 2.5 ∧
      ((chicken.scale_macros 2.5).calories = chicken.calories * 2.5 / 100 ∧
        (chicken.scale_macros 2.5).protein = chicken.protein * 2.5 / 100 ∧
        (chicken.scale_macros 2.5).carbs = chicken.carbs * 2.5 / 100 ∧
        (chicken.scale_macros 2.5).fat = chicken.fat * 2.5 / 100 ∧
        (chicken.scale_macros 2.5).fiber = chicken.fiber * 2.5 / 100) ∧
      chicken.scale_macros 0 = Macros.zero :=
  ⟨by norm_num, (scale_macros_spec chicken 2.5 (by norm_num)).1,
    (scale_macros_spec chicken 2.5 (by norm_num)).2⟩

/-- C3: for every daily log L, the day-level totals equal the field-wise sum,
over all DailyLogMeal attachments, of the attached meal's totals with each
field multiplied by the attachment's servings; a log with no attachments has
all-zero totals.  The day-level totals operation itself is modelled from the
spec (models.py declares the tables but no totals method). -/
theorem log_totals_fieldwise_sum (l : DailyLogObj) :
    (l.calculate_totals.calories =
        (l.daily_log_meals.map fun d =>
          d.meal.calculate_totals.calories * d.servings).sum ∧
      l.calculate_totals.protein =
        (l.daily_log_meals.map fun d =>
          d.meal.calculate_totals.protein * d.servings).sum ∧
      l.calculate_totals.carbs =
        (l.daily_log_meals.map fun d =>
          d.meal.calculate_totals.carbs * d.servings).sum ∧
      l.calculate_totals.fat =
        (l.daily_log_meals.map fun d =>
          d.meal.calculate_totals.fat * d.servings).sum ∧
      l.calculate_totals.fiber =
        (l.daily_log_meals.map fun d =>
          d.meal.calculate_totals.fiber * d.servings).sum) ∧
    (l.daily_log_meals = [] → l.calculate_totals = Macros.zero) := by
  have hfold : l.calculate_totals =
      l.daily_log_meals.foldl (fun t d => t.add
        { calories := d.meal.calculate_totals.calories * d.servings
          protein := d.meal.calculate_totals.protein * d.servings
          carbs := d.meal.calculate_totals.carbs * d.servings
          fat := d.meal.calculate_totals.fat * d.servings
          fiber := d.meal.calculate_totals.fiber * d.servings }) Macros.zero := rfl
  constructor
  · rw [hfold, foldl_add_macros]
    simp [Macros.zero]
  · intro h
    simp [DailyLogObj.calculate_totals, h]

/-- C3 witness: the sum shape and the empty case evaluated on concrete
logs. -/
theorem log_totals_fieldwise_sum_witness :
    day1.calculate_totals.calories =
      (day1.daily_log_meals.map fun d =>
        d.meal.calculate_totals.calories * d.servings).sum ∧
    emptyLog.calculate_totals = Macros.zero :=
  ⟨(log_totals_fieldwise_sum day1).1.1,
   (log_totals_fieldwise_sum emptyLog).2 rfl⟩

/-- C9: the concrete scenario of spec section 8.  Chicken breast
(165 kcal / 31 protein / 0 carbs / 3.6 fat / 0 fiber per 100g) scaled to 150g
gives exactly 247.5 calories and 46.5 protein; the Lunch meal holding only
that row has totals equal to those scaled values; attaching Lunch to a day
with servings 2 gives exactly 495 calories and 93 protein (the day-level
totals operation is modelled from the spec). -/
theorem chicken_scenario :
    (chicken.scale_macros 150).calories = 247.5 ∧
    (chicken.scale_macros 150).protein = 46.5 ∧
    lunch.calculate_totals = chicken.scale_macros 150 ∧
    day1.calculate_totals.calories = 495 ∧
    day1.calculate_totals.protein = 93 := by
  refine ⟨?_, ?_, ?_, ?_, ?_⟩ <;>
    norm_num [chicken, lunch, day1, Ingredient.scale_macros,
      MealObj.calculate_totals, DailyLogObj.calculate_totals,
      Macros.zero, Macros.add]

/-- C10: `scale_macros` performs no validation of its quantity argument: it is
a total function, and for every quantity g (negative included) each field
equals base × g / 100, so a negative quantity with a positive base yields a
negative macro value. -/
theorem scale_macros_no_validation (i : Ingredient) (g : ℚ) :
    ((i.scale_macros g).calories = i.calories * g / 100 ∧
      (i.scale_macros g).protein = i.protein * g / 100 ∧
      (i.scale_macros g).carbs = i.carbs * g / 100 ∧
      (i.scale_macros g).fat = i.fat * g / 100 ∧
      (i.scale_macros g).fiber = i.fiber * g / 100) ∧
    (g < 0 → 0 < i.calories → (i.scale_macros g).calories < 0) := by
  refine ⟨by refine ⟨?_, ?_, ?_, ?_, ?_⟩ <;>
    simp [Ingredient.scale_macros] <;> ring, fun hg hc => ?_⟩
  show i.calories * (g / 100) < 0
  exact mul_neg_of_pos_of_neg hc (div_neg_of_neg_of_pos hg (by norm_num))

/-- C10 witness: scaling chicken by -50g yields -82.5 calories and raises
nothing. -/
theorem scale_macros_no_validation_witness :
    (chicken.scale_macros (-50)).calories = chicken.calories * (-50) / 100 ∧
    ((-50 : ℚ) < 0 ∧ (0 : ℚ) < chicken.calories ∧
      (chicken.scale_macros (-50)).calories < 0) :=
  ⟨(scale_macros_no_validation chicken (-50)).1.1,
    by norm_num [chicken], by norm_num [chicken],
    (scale_macros_no_validation chicken (-50)).2 (by norm_num)
      (by norm_num [chicken])⟩

/-- C4: deleting an ingredient referenced by at least one MealIngredient row
fails with ReferentialIntegrityError (an error result performs no mutation, so
the ingredient and the referencing rows are untouched); once no MealIngredient
row references it, the delete succeeds and removes exactly that ingredient
row.  The delete operation is modelled from the spec around the ondelete
RESTRICT foreign key declared in models.py. -/
theorem delete_ingredient_guard (db : DBState) (iid : Nat) :
    ((∃ mi ∈ db.meal_ingredients, mi.ingredient_id = iid) →
        deleteIngredient db iid = .error .referentialIntegrityError) ∧
    ((∀ mi ∈ db.meal_ingredients, mi.ingredient_id ≠ iid) →
        deleteIngredient db iid =
          .ok { db with ingredients := db.ingredients.filter (fun r => r.id != iid) }) := by
  constructor
  · rintro ⟨mi, hmem, hid⟩
    have hany : (db.meal_ingredients.any fun x => x.ingredient_id == iid) = true :=
      List.any_eq_true.mpr ⟨mi, hmem, by simp [hid]⟩
    unfold deleteIngredient
    rw [hany]
    simp
  · intro h
    have hany : (db.meal_ingredients.any fun x => x.ingredient_id == iid) = false := by
      rw [List.any_eq_false]
      intro mi hmi
      simpa using h mi hmi
    unfold deleteIngredient
    rw [hany]
    simp

/-- C4 witness: in the concrete database, deleting the referenced chicken
(id 1) is blocked, and deleting the unreferenced rice (id 2) succeeds. -/
theorem delete_ingredient_guard_witness :
    deleteIngredient db0 1 = .error .referentialIntegrityError ∧
    deleteIngredient db0 2 =
      .ok { db0 with ingredients := db0.ingredients.filter (fun r => r.id != 2) } :=
  ⟨(delete_ingredient_guard db0 1).1
      ⟨{ id := 1, meal_id := 1, ingredient_id := 1, quantity_grams := 150 },
        by simp [db0], rfl⟩,
    (delete_ingredient_guard db0 2).2 (by simp [db0])⟩

/-- C7: creating a second ingredient with the same name for the same user
fails with ValidationError (so no row is added); creating one whose
(user_id, name) pair is fresh succeeds (given nonnegative macros) and appends
exactly that row; and a successful create preserves the (user_id, name)
uniqueness invariant.  The create operation is modelled from the spec around
the unique constraint `uq_ingredients_user_id_name` declared in models.py. -/
theorem ingredient_name_uniqueness (db : DBState) (ing : Ingredient) :
    ((∃ r ∈ db.ingredients, r.user_id = ing.user_id ∧ r.name = ing.name) →
        createIngredient db ing = .error .validationError) ∧
    ((∀ r ∈ db.ingredients, ¬(r.user_id = ing.user_id ∧ r.name = ing.name)) →
        0 ≤ ing.calories → 0 ≤ ing.protein → 0 ≤ ing.carbs → 0 ≤ ing.fat →
        0 ≤ ing.fiber →
        createIngredient db ing = .ok { db with ingredients := db.ingredients ++ [ing] }) ∧
    (uniqueUserName db.ingredients → ∀ db', createIngredient db ing = .ok db' →
        uniqueUserName db'.ingredients) := by
  refine ⟨?_, ?_, ?_⟩
  · rintro ⟨r, hr, hu, hn⟩
    have hany : (db.ingredients.any fun x =>
        x.user_id == ing.user_id && x.name == ing.name) = true :=
      List.any_eq_true.mpr ⟨r, hr, by simp [hu, hn]⟩
    unfold createIngredient
    by_cases h1 : ing.calories < 0 ∨ ing.protein < 0 ∨ ing.carbs < 0 ∨
        ing.fat < 0 ∨ ing.fiber < 0
    · rw [if_pos h1]
    · rw [if_neg h1, hany]
      simp
  · intro h hc hp hcb hf hfi
    have h1 : ¬(ing.calories < 0 ∨ ing.protein < 0 ∨ ing.carbs < 0 ∨
        ing.fat < 0 ∨ ing.fiber < 0) := by
      push_neg
      exact ⟨hc, hp, hcb, hf, hfi⟩
    have hany : (db.ingredients.any fun x =>
        x.user_id == ing.user_id && x.name == ing.name) = false := by
      rw [List.any_eq_false]
      intro r hr
      simpa using h r hr
    unfold createIngredient
    rw [if_neg h1, hany]
    simp
  · intro huniq db' hok
    unfold createIngredient at hok
    by_cases h1 : ing.calories < 0 ∨ ing.protein < 0 ∨ ing.carbs < 0 ∨
        ing.fat < 0 ∨ ing.fiber < 0
    · rw [if_pos h1] at hok
      exact absurd hok (by simp)
    · rw [if_neg h1] at hok
      by_cases h2 : (db.ingredients.any fun x =>
          x.user_id == ing.user_id && x.name == ing.name) = true
      · rw [h2] at hok
        simp at hok
      · rw [Bool.not_eq_true] at h2
        rw [h2] at hok
        simp only [Bool.false_eq_true, if_false] at hok
        injection hok with h
        subst h
        show uniqueUserName (db.ingredients ++ [ing])
        unfold uniqueUserName at huniq ⊢
        rw [List.pairwise_append]
        refine ⟨huniq, List.pairwise_singleton _ _, ?_⟩
        intro a ha b hb
        simp only [List.mem_singleton] at hb
        subst hb
        rintro ⟨hu, hn⟩
        rw [List.any_eq_false] at h2
        exact h2 a ha (by simp [hu, hn])

/-- C7 witness: a duplicate Chicken Breast for user 1 is rejected, user 2 may
reuse the name, and the successful create keeps the ingredient list's
(user_id, name) pairs unique. -/
theorem ingredient_name_uniqueness_witness :
    createIngredient db0 chickenDup = .error .validationError ∧
    createIngredient db0 chickenUser2 =
      .ok { db0 with ingredients := db0.ingredients ++ [chickenUser2] } ∧
    uniqueUserName ({ db0 with ingredients := db0.ingredients ++ [chickenUser2] }).ingredients := by
  have hfresh : ∀ r ∈ db0.ingredients,
      ¬(r.user_id = chickenUser2.user_id ∧ r.name = chickenUser2.name) := by
    simp [db0, chicken, rice, chickenUser2]
  have hok := (ingredient_name_uniqueness db0 chickenUser2).2.1 hfresh
    (by norm_num [chickenUser2]) (by norm_num [chickenUser2])
    (by norm_num [chickenUser2]) (by norm_num [chickenUser2])
    (by norm_num [chickenUser2])
  refine ⟨(ingredient_name_uniqueness db0 chickenDup).1
      ⟨chicken, by simp [db0], by simp [chicken, chickenDup]⟩, hok, ?_⟩
  exact (ingredient_name_uniqueness db0 chickenUser2).2.2
    (by simp [uniqueUserName, db0, chicken, rice]) _ hok

/-- C5: linking across users fails with OwnershipError: `add_ingredient` when
the ingredient's and the meal's user differ, and `attach_meal` when the meal's
and the log's user differ (with positive quantity/servings and, for attach, no
pre-existing attachment, so the earlier checks do not fire first); moreover
both operations preserve the absence of cross-user join rows, so no cross-user
MealIngredient or DailyLogMeal row is ever created.  Both operations are
modelled from the spec (section 9 notes the schema itself does not enforce
this guard). -/
theorem cross_user_guard (db : DBState) (mid iid lid : Nat) (q sv : ℚ)
    (nid1 nid2 : Nat) :
    (∀ meal ing, findMeal db mid = some meal → findIngredient db iid = some ing →
        0 < q → ing.user_id ≠ meal.user_id →
        add_ingredient db mid iid q nid1 = .error .ownershipError) ∧
    (∀ log meal, findDailyLog db lid = some log → findMeal db mid = some meal →
        0 < sv →
        (∀ r ∈ db.daily_log_meals, ¬(r.daily_log_id = lid ∧ r.meal_id = mid)) →
        meal.user_id ≠ log.user_id →
        attach_meal db lid mid sv nid2 = .error .ownershipError) ∧
    (crossFree db → ∀ db', add_ingredient db mid iid q nid1 = .ok db' →
        crossFree db') ∧
    (crossFree db → ∀ db', attach_meal db lid mid sv nid2 = .ok db' →
        crossFree db') := by
  refine ⟨?_, ?_, ?_, ?_⟩
  · intro meal ing hm hi hq hne
    unfold add_ingredient
    rw [hm, hi]
    dsimp only
    rw [if_neg (not_le.mpr hq), if_neg hne]
  · intro log meal hl hm hsv hno hne
    have hany : (db.daily_log_meals.any fun r =>
        r.daily_log_id == lid && r.meal_id == mid) = false := by
      rw [List.any_eq_false]
      intro r hr
      simpa using hno r hr
    unfold attach_meal
    rw [hl, hm]
    dsimp only
    rw [if_neg (not_le.mpr hsv), hany]
    simp only [Bool.false_eq_true, if_false]
    rw [if_neg hne]
  · intro hcf db' hok
    unfold add_ingredient at hok
    cases hm : findMeal db mid with
    | none => rw [hm] at hok; exact absurd hok (by simp)
    | some meal =>
      cases hi : findIngredient db iid with
      | none => rw [hm, hi] at hok; exact absurd hok (by simp)
      | some ing =>
        rw [hm, hi] at hok
        dsimp only at hok
        by_cases hq : q ≤ 0
        · rw [if_pos hq] at hok
          exact absurd hok (by simp)
        · rw [if_neg hq] at hok
          by_cases hown : ing.user_id = meal.user_id
          · rw [if_pos hown] at hok
            injection hok with h
            subst h
            constructor
            · intro mi hmi m i hm' hi'
              have hm2 : findMeal db mi.meal_id = some m := hm'
              have hi2 : findIngredient db mi.ingredient_id = some i := hi'
              rcases List.mem_append.mp hmi with hold | hnew
              · exact hcf.1 mi hold m i hm2 hi2
              · simp only [List.mem_singleton] at hnew
                subst hnew
                have e1 : some meal = some m := hm.symm.trans hm2
                have e2 : some ing = some i := hi.symm.trans hi2
                injection e1 with e1
                injection e2 with e2
                subst e1
                subst e2
                exact hown.symm
            · intro r hr l m hl' hm'
              exact hcf.2 r hr l m hl' hm'
          · rw [if_neg hown] at hok
            exact absurd hok (by simp)
  · intro hcf db' hok
    unfold attach_meal at hok
    cases hl : findDailyLog db lid with
    | none => rw [hl] at hok; exact absurd hok (by simp)
    | some log =>
      cases hm : findMeal db mid with
      | none => rw [hl, hm] at hok; exact absurd hok (by simp)
      | some meal =>
        rw [hl, hm] at hok
        dsimp only at hok
        by_cases hsv : sv ≤ 0
        · rw [if_pos hsv] at hok
          exact absurd hok (by simp)
        · rw [if_neg hsv] at hok
          by_cases hany : (db.daily_log_meals.any fun r =>
              r.daily_log_id == lid && r.meal_id == mid) = true
          · rw [hany] at hok
            simp at hok
          · rw [Bool.not_eq_true] at hany
            rw [hany] at hok
            simp only [Bool.false_eq_true, if_false] at hok
            by_cases hown : meal.user_id = log.user_id
            · rw [if_pos hown] at hok
              injection hok with h
              subst h
              constructor
              · intro mi hmi m i hm' hi'
                exact hcf.1 mi hmi m i hm' hi'
              · intro r hr l m hl' hm'
                have hl2 : findDailyLog db r.daily_log_id = some l := hl'
                have hm2 : findMeal db r.meal_id = some m := hm'
                rcases List.mem_append.mp hr with hold | hnew
                · exact hcf.2 r hold l m hl2 hm2
                · simp only [List.mem_singleton] at hnew
                  subst hnew
                  have e1 : some log = some l := hl.symm.trans hl2
                  have e2 : some meal = some m := hm.symm.trans hm2
                  injection e1 with e1
                  injection e2 with e2
                  subst e1
                  subst e2
                  exact hown.symm
            · rw [if_neg hown] at hok
              exact absurd hok (by simp)

/-- C5 witness: putting user 2's rice into user 1's Lunch and attaching user
2's meal to user 1's log both fail with OwnershipError, and the successful
same-user link operations keep the join tables free of cross-user rows. -/
theorem cross_user_guard_witness :
    add_ingredient db0 1 2 50 7 = .error .ownershipError ∧
    attach_meal db0 1 2 1 8 = .error .ownershipError ∧
    crossFree { dbFree with meal_ingredients :=
      dbFree.meal_ingredients ++ [⟨7, 1, 1, 50⟩] } ∧
    crossFree { dbFree with daily_log_meals :=
      dbFree.daily_log_meals ++ [⟨8, 1, 1, 1⟩] } := by
  have hfree : crossFree dbFree := by
    constructor
    · intro mi hmi
      simp [dbFree] at hmi
    · intro r hr
      simp [dbFree] at hr
  refine ⟨?_, ?_, ?_, ?_⟩
  · exact (cross_user_guard db0 1 2 1 50 1 7 8).1 lunchRow rice rfl rfl
      (by norm_num) (by simp [rice, lunchRow])
  · exact (cross_user_guard db0 2 1 1 1 1 7 8).2.1 logRow otherMealRow rfl rfl
      (by norm_num) (by simp [db0]) (by simp [otherMealRow, logRow])
  · exact (cross_user_guard dbFree 1 1 1 50 1 7 8).2.2.1 hfree _ rfl
  · exact (cross_user_guard dbFree 1 1 1 1 1 7 8).2.2.2 hfree _ rfl

/-- C6: attaching a meal to a daily log that already holds an attachment row
for that (log, meal) pair fails with ConflictError (an error result performs
no mutation, so no new row appears; the `(daily_log_id, meal_id)` unique
constraint of models.py keeps multiple servings in the `servings` field rather
than in extra rows); after `detach_meal` removes the pair's rows, attaching
again succeeds and appends exactly one fresh attachment row.  The attach and
detach operations are modelled from the spec around that unique constraint. -/
theorem attach_conflict_then_reattach (db : DBState) (lid mid : Nat) (sv : ℚ)
    (nid : Nat) :
    (∀ log meal, findDailyLog db lid = some log → findMeal db mid = some meal →
        0 < sv →
        (∃ r ∈ db.daily_log_meals, r.daily_log_id = lid ∧ r.meal_id = mid) →
        attach_meal db lid mid sv nid = .error .conflictError) ∧
    (∀ log meal, findDailyLog db lid = some log → findMeal db mid = some meal →
        0 < sv → meal.user_id = log.user_id →
        attach_meal (detach_meal db lid mid) lid mid sv nid =
          .ok { detach_meal db lid mid with daily_log_meals :=
                  (detach_meal db lid mid).daily_log_meals ++ [⟨nid, lid, mid, sv⟩] }) := by
  constructor
  · rintro log meal hl hm hsv ⟨r, hr, h1, h2⟩
    have hany : (db.daily_log_meals.any fun x =>
        x.daily_log_id == lid && x.meal_id == mid) = true :=
      List.any_eq_true.mpr ⟨r, hr, by simp [h1, h2]⟩
    unfold attach_meal
    rw [hl, hm]
    dsimp only
    rw [if_neg (not_le.mpr hsv), hany]
    simp
  · intro log meal hl hm hsv hown
    have hl2 : findDailyLog (detach_meal db lid mid) lid = some log := hl
    have hm2 : findMeal (detach_meal db lid mid) mid = some meal := hm
    have hany : ((detach_meal db lid mid).daily_log_meals.any fun x =>
        x.daily_log_id == lid && x.meal_id == mid) = false := by
      rw [List.any_eq_false]
      intro r hr
      have hr2 := List.mem_filter.mp hr
      have := hr2.2
      simp only [Bool.not_eq_true'] at this ⊢
      simpa using this
    unfold attach_meal
    rw [hl2, hm2]
    dsimp only
    rw [if_neg (not_le.mpr hsv), hany]
    simp only [Bool.false_eq_true, if_false]
    rw [if_pos hown]

/-- C6 witness: in the concrete database, re-attaching Lunch to the day it is
already attached to is rejected, and attaching after detaching succeeds. -/
theorem attach_conflict_then_reattach_witness :
    attach_meal db0 1 1 1 9 = .error .conflictError ∧
    attach_meal (detach_meal db0 1 1) 1 1 1 9 =
      .ok { detach_meal db0 1 1 with daily_log_meals :=
              (detach_meal db0 1 1).daily_log_meals ++ [⟨9, 1, 1, 1⟩] } :=
  ⟨(attach_conflict_then_reattach db0 1 1 1 9).1 logRow lunchRow rfl rfl
      (by norm_num)
      ⟨{ id := 1, daily_log_id := 1, meal_id := 1, servings := 2 },
        by simp [db0], rfl, rfl⟩,
    (attach_conflict_then_reattach db0 1 1 1 9).2 logRow lunchRow rfl rfl
      (by norm_num) rfl⟩

/-- C8: reading totals is pure and uncached: the state-passing totals read
returns the state unchanged, a second read on the returned state yields the
same result, and the computed totals depend only on the current
MealIngredient rows and current Ingredient records — two states agreeing on
those agree on every meal's totals, so any edit to an ingredient's macros or
a meal's composition is immediately reflected in a recomputed total. -/
theorem totals_pure_read (dbA dbB : DBState) (mid : Nat) :
    (calcTotalsRead dbA mid).2 = dbA ∧
    (calcTotalsRead (calcTotalsRead dbA mid).2 mid).1 = (calcTotalsRead dbA mid).1 ∧
    (dbA.meal_ingredients = dbB.meal_ingredients →
      (∀ j, findIngredient dbA j = findIngredient dbB j) →
      mealTotalsDB dbA mid = mealTotalsDB dbB mid) := by
  refine ⟨rfl, rfl, fun h1 h2 => ?_⟩
  unfold mealTotalsDB
  rw [h1]
  generalize dbB.meal_ingredients.filter (fun r => r.meal_id == mid) = l
  induction l with
  | nil => rfl
  | cons r rest ih =>
    simp only [rowsTotals, h2, ih]

/-- C8 witness: reading Lunch's totals leaves the concrete database unchanged,
and a state differing only in data outside the ingredient and meal-ingredient
tables yields the same totals. -/
theorem totals_pure_read_witness :
    (calcTotalsRead db0 1).2 = db0 ∧
    mealTotalsDB db0 1 = mealTotalsDB { db0 with daily_logs := [] } 1 :=
  ⟨(totals_pure_read db0 db0 1).1,
    (totals_pure_read db0 { db0 with daily_logs := [] } 1).2.2 rfl (fun _ => rfl)⟩

end JackTrack
